import Mathlib

/-!
Verification of the IconVault favorites store, icon identifier resolver and
icon search proxy route against their natural-language specification.

The embedding below is a shallow model of the TypeScript sources:

- src/types.ts               : the IconData record type
- src/useFavorites.ts        : the favorites hook (load effect, save helper,
                               addFavorite, removeFavorite, toggleFavorite)
- src/app/search/page.tsx    : handleToggleFavorite and getIconId
- src/app/favorites/page.tsx : loadFavorites, removeFavorite and getIconId
- src/app/api/icons/route.ts : the GET proxy handler

JavaScript idioms are modelled explicitly: a value of type string or number
is JsId; truthiness of such a value and of strings follows JavaScript
(empty string and the number zero are falsy); localStorage holds, per key,
either nothing, unparseable text, or a parsed value (the Cell type); a
caught JSON.parse exception is a Cell.malformed branch, so the load
functions are total and never propagate an exception.
-/

/-- A JavaScript value of type string or number, as allowed for the id field
of IconData in src/types.ts. -/
inductive JsId : Type
  | str (s : String)
  | num (n : Int)
deriving DecidableEq, Repr

/-- JavaScript toString for an id value: a string is itself, a number prints
in decimal. -/
def JsId.toStr : JsId → String
  | .str s => s
  | .num n => toString n

/-- JavaScript truthiness of an id value: the empty string and the number
zero are falsy. -/
def jsTruthy : JsId → Bool
  | .str s => s ≠ ""
  | .num n => n ≠ 0

/-- Truthiness of a possibly-undefined id value, as tested by the line
if (icon.id) in getIconId: undefined is falsy. -/
def jsTruthyOpt : Option JsId → Bool
  | none => false
  | some v => jsTruthy v

/-- The JavaScript expression a || b for strings, where the empty string is
falsy. -/
def jsOrStr (a b : String) : String :=
  if a = "" then b else a

/-- The icon record of src/types.ts. The raster_sizes field is omitted: no
claim under verification mentions it (it feeds only the download handler).
The id field is Option JsId because the pages receive API records that may
lack it, which every call site guards against. -/
structure IconData : Type where
  name : String
  url : String
  id : Option JsId
  tags : Option (List String)
deriving DecidableEq, Repr

/-- The JavaScript expression icon.id?.toString() collapsed with its
falsiness default: yields the empty string when id is undefined, otherwise
the decimal or literal string form. This is the value tested by if (!iconId)
in addFavorite, toggleFavorite and handleToggleFavorite. -/
def idOfStored (icon : IconData) : String :=
  (icon.id.map JsId.toStr).getD ""

/-- The expression icon.tags?.[0] || "notag": first tag when the tags array
exists, is nonempty and its first entry is a nonempty string, otherwise the
fallback token. -/
def firstTagOrNotag (icon : IconData) : String :=
  jsOrStr ((icon.tags.getD []).headD "") "notag"

/-- The synthesized identifier template shared verbatim by getIconId on both
pages (disambiguator = positional index) and by handleToggleFavorite on the
search page (disambiguator = Date.now()):
icon_ ++ (name or unknown) ++ _ ++ (first tag or notag) ++ _ ++ disambiguator. -/
def synthIconId (icon : IconData) (disamb : Nat) : String :=
  "icon_" ++ jsOrStr icon.name "unknown" ++ "_" ++ firstTagOrNotag icon ++ "_" ++ toString disamb

/-- getIconId from src/app/search/page.tsx lines 212-218 and
src/app/favorites/page.tsx lines 155-161 (the two copies are identical):
if (icon.id) return icon.id.toString(); otherwise the synthesized template
with the positional index. -/
def getIconId (icon : IconData) (index : Nat) : String :=
  match icon.id with
  | some v => if jsTruthy v then v.toStr else synthIconId icon index
  | none => synthIconId icon index

/-- The resolution applied to records already stored in the favorites array
by the removal filter of src/app/favorites/page.tsx removeFavorite and by
the removal filter and duplicate check of src/app/search/page.tsx
handleToggleFavorite: icon.id?.toString() || the synthesized template with
NO disambiguator suffix. -/
def storedIconId (icon : IconData) : String :=
  jsOrStr (idOfStored icon) ("icon_" ++ jsOrStr icon.name "unknown" ++ "_" ++ firstTagOrNotag icon)

/-- One localStorage slot as seen through JSON.parse: the key may be absent
(getItem returns null), hold text that JSON.parse rejects, or hold the JSON
encoding of a value of type A. -/
inductive Cell (A : Type) : Type
  | absent
  | malformed
  | val (a : A)
deriving DecidableEq, Repr

/-- The two localStorage keys the favorites store uses: iconFavorites holds
an array of identifier strings, favoriteIconsData an array of icon records. -/
structure Storage : Type where
  iconFavorites : Cell (List String)
  favoriteIconsData : Cell (List IconData)
deriving DecidableEq, Repr

/-- saveFavoritesToStorage from src/useFavorites.ts lines 67-74 and its
identical inline copy in src/app/search/page.tsx: writes both keys, the set
spread to an array in insertion order. -/
def saveFavoritesToStorage (newFavorites : List String) (newIconsData : List IconData) : Storage :=
  ⟨Cell.val newFavorites, Cell.val newIconsData⟩

/-- The in-memory store state: the favorites Set of identifier strings
(modelled as its insertion-ordered, duplicate-free element list), the
favoriteIcons array, and the backing localStorage. -/
structure FavState : Type where
  favorites : List String
  icons : List IconData
  storage : Storage
deriving DecidableEq, Repr

/-- The state of a fresh session: empty set, empty array, no persisted keys. -/
def initState : FavState :=
  ⟨[], [], ⟨Cell.absent, Cell.absent⟩⟩

/-- The JavaScript constructor new Set(array): inserts left to right,
keeping the first occurrence of each element. -/
def jsNewSet (l : List String) : List String :=
  l.foldl (fun acc x => if x ∈ acc then acc else acc ++ [x]) []

/-- addFavorite from src/useFavorites.ts lines 81-100: takes the string form
of the native id, returns unchanged if that is falsy or already a member,
otherwise adds the id to the set, appends the record to the array and writes
both keys to storage. -/
def addFavorite (icon : IconData) (st : FavState) : FavState :=
  let iconId := idOfStored icon
  if iconId = "" then st
  else if iconId ∈ st.favorites then st
  else
    let newFavorites := st.favorites ++ [iconId]
    let updatedIcons := st.icons ++ [icon]
    ⟨newFavorites, updatedIcons, saveFavoritesToStorage newFavorites updatedIcons⟩

/-- removeFavorite from src/useFavorites.ts lines 105-123: if the id is a
member, deletes it from the set, drops every record whose
icon.id?.toString() strictly equals it, and writes storage; otherwise
unchanged. An undefined id is strictly unequal to any string, so records
without a native id are kept by the filter. -/
def removeFavorite (iconId : String) (st : FavState) : FavState :=
  if iconId ∈ st.favorites then
    let newFavorites := st.favorites.filter (fun s => decide (s ≠ iconId))
    let updatedIcons := st.icons.filter (fun icon => decide (icon.id.map JsId.toStr ≠ some iconId))
    ⟨newFavorites, updatedIcons, saveFavoritesToStorage newFavorites updatedIcons⟩
  else st

/-- toggleFavorite from src/useFavorites.ts lines 128-137: falsy string form
of the native id is an early return; otherwise removeFavorite when the id is
a member, addFavorite when not. -/
def toggleFavorite (icon : IconData) (st : FavState) : FavState :=
  let iconId := idOfStored icon
  if iconId = "" then st
  else if iconId ∈ st.favorites then removeFavorite iconId st
  else addFavorite icon st

/-- handleToggleFavorite from src/app/search/page.tsx lines 144-193, with
Date.now() passed in as the parameter now. When the string form of the id is
falsy it synthesizes a timestamp identifier AND writes it into the record
(icon.id = iconId), so the returned record carries the mutation. Membership
then selects removal (delete from the set, filter the array by
storedIconId) or addition (add to the set, append unless a stored record
already resolves to the same identifier); both branches write storage. -/
def handleToggleFavorite (icon : IconData) (now : Nat) (st : FavState) : FavState × IconData :=
  let iconId0 := idOfStored icon
  let iconId := if iconId0 = "" then synthIconId icon now else iconId0
  let icon2 := if iconId0 = "" then { icon with id := some (JsId.str iconId) } else icon
  if iconId ∈ st.favorites then
    let newFavorites := st.favorites.filter (fun s => decide (s ≠ iconId))
    let newIconsData := st.icons.filter (fun favIcon => decide (storedIconId favIcon ≠ iconId))
    (⟨newFavorites, newIconsData, saveFavoritesToStorage newFavorites newIconsData⟩, icon2)
  else
    let newFavorites := st.favorites ++ [iconId]
    let iconExists := st.icons.any (fun favIcon => storedIconId favIcon == iconId)
    let newIconsData := if iconExists then st.icons else st.icons ++ [icon2]
    (⟨newFavorites, newIconsData, saveFavoritesToStorage newFavorites newIconsData⟩, icon2)

/-- removeFavorite from src/app/favorites/page.tsx lines 119-146: no
membership guard; deletes the id from the set, drops every record whose
storedIconId (native id string when truthy, otherwise the suffix-free
template) equals it, and writes both keys. -/
def pageRemoveFavorite (iconId : String) (st : FavState) : FavState :=
  let newFavorites := st.favorites.filter (fun s => decide (s ≠ iconId))
  let updatedIcons := st.icons.filter (fun icon => decide (storedIconId icon ≠ iconId))
  ⟨newFavorites, updatedIcons, saveFavoritesToStorage newFavorites updatedIcons⟩

/-- Result of a load: the favorites set (as an insertion-ordered list), the
records array, and whether a failure was reported to the console sink.
Totality of the load functions models that no exception reaches the caller. -/
structure LoadResult : Type where
  favorites : List String
  icons : List IconData
  logged : Bool
deriving DecidableEq, Repr

/-- The load effect of src/useFavorites.ts lines 44-62. Inside one try
block: if the iconFavorites text is present it is parsed and the set state
is assigned; then if the favoriteIconsData text is present it is parsed and
the array state is assigned; a parse failure jumps to the catch, which logs.
A failure on the second key therefore leaves the set already assigned from
the first. -/
def loadFavoritesHook (s : Storage) : LoadResult :=
  match s.iconFavorites with
  | Cell.malformed => ⟨[], [], true⟩
  | Cell.absent =>
    match s.favoriteIconsData with
    | Cell.malformed => ⟨[], [], true⟩
    | Cell.absent => ⟨[], [], false⟩
    | Cell.val d => ⟨[], d, false⟩
  | Cell.val ids =>
    match s.favoriteIconsData with
    | Cell.malformed => ⟨jsNewSet ids, [], true⟩
    | Cell.absent => ⟨jsNewSet ids, [], false⟩
    | Cell.val d => ⟨jsNewSet ids, d, false⟩

/-- loadFavorites from src/app/favorites/page.tsx lines 65-88. Both parses
run before either state assignment, so a failure on either key leaves both
pieces of state empty. -/
def loadFavoritesPage (s : Storage) : LoadResult :=
  match s.iconFavorites with
  | Cell.malformed => ⟨[], [], true⟩
  | Cell.absent =>
    match s.favoriteIconsData with
    | Cell.malformed => ⟨[], [], true⟩
    | Cell.absent => ⟨jsNewSet [], [], false⟩
    | Cell.val d => ⟨jsNewSet [], d, false⟩
  | Cell.val ids =>
    match s.favoriteIconsData with
    | Cell.malformed => ⟨[], [], true⟩
    | Cell.absent => ⟨jsNewSet ids, [], false⟩
    | Cell.val d => ⟨jsNewSet ids, d, false⟩

/-- One mutating operation on the favorites store, covering the three hook
operations and the inline toggle of the search page (whose Date.now() value
is the second argument). -/
inductive FavOp : Type
  | add (icon : IconData)
  | remove (id : String)
  | toggle (icon : IconData)
  | toggleSearch (icon : IconData) (now : Nat)

/-- Apply one operation to a store state. -/
def applyOp (st : FavState) : FavOp → FavState
  | FavOp.add icon => addFavorite icon st
  | FavOp.remove i => removeFavorite i st
  | FavOp.toggle icon => toggleFavorite icon st
  | FavOp.toggleSearch icon now => (handleToggleFavorite icon now st).1

/-- Run a sequence of operations left to right. -/
def runOps (ops : List FavOp) (st : FavState) : FavState :=
  ops.foldl applyOp st

/-- Upstream response seen by the proxy: an HTTP status plus the decoded
JSON body, the body type left abstract. -/
structure UpstreamResp (B : Type) : Type where
  status : Nat
  body : B

/-- The body the proxy route responds with: either a JSON error object with
the given message, or the upstream JSON payload passed through. -/
inductive RouteBody (B : Type) : Type
  | err (msg : String)
  | json (b : B)
deriving DecidableEq

/-- An HTTP response of the proxy route: status plus body. -/
structure RouteResp (B : Type) : Type where
  status : Nat
  body : RouteBody B
deriving DecidableEq

/-- Response.ok of the fetch API: status in the 200-299 range. -/
def resOk (status : Nat) : Bool :=
  200 ≤ status && status < 300

/-- GET from src/app/api/icons/route.ts lines 5-28. The query is
searchParams.get, null when missing; the key is process.env, undefined when
unset; if (!query || !API_KEY) responds 400 with the fixed error body. The
upstream is fetched with the query; a non-ok upstream status is passed
through with the fixed error body; otherwise the upstream JSON is returned
with status 200. -/
def routeGET {B : Type} (q : Option String) (apiKey : Option String)
    (upstream : String → UpstreamResp B) : RouteResp B :=
  if q.getD "" = "" || apiKey.getD "" = "" then
    ⟨400, RouteBody.err "Missing query or API key"⟩
  else
    let res := upstream (q.getD "")
    if !resOk res.status then ⟨res.status, RouteBody.err "Failed to fetch icons"⟩
    else ⟨200, RouteBody.json res.body⟩

/-! ### Basic facts about identifier strings -/

/-- A synthesized identifier is never the empty string. -/
theorem synthIconId_ne_empty (icon : IconData) (n : Nat) : synthIconId icon n ≠ "" := by
  intro h
  have hl := congrArg String.length h
  simp only [synthIconId, String.length_append] at hl
  have h5 : ("icon_" : String).length = 5 := rfl
  have h0 : ("" : String).length = 0 := rfl
  omega

/-- When the string form of the id is truthy, the optional string form is
exactly that string. -/
theorem idOfStored_some {r : IconData} (h : idOfStored r ≠ "") :
    r.id.map JsId.toStr = some (idOfStored r) := by
  unfold idOfStored at *
  cases hid : r.id with
  | none => simp [hid] at h
  | some v => simp [hid]

/-- On a record whose native id has a truthy string form, the stored-record
resolution returns that string form. -/
theorem storedIconId_eq_idOfStored {r : IconData} (h : idOfStored r ≠ "") :
    storedIconId r = idOfStored r := by
  unfold storedIconId jsOrStr
  simp [h]

/-- On a record whose native id has a falsy string form, the stored-record
resolution falls back to the suffix-free template. -/
theorem storedIconId_of_empty {r : IconData} (h : idOfStored r = "") :
    storedIconId r = "icon_" ++ jsOrStr r.name "unknown" ++ "_" ++ firstTagOrNotag r := by
  unfold storedIconId jsOrStr
  simp [h]

/-- The suffix-free template differs from the synthesized identifier of the
same record at every disambiguator: the latter is strictly longer. -/
theorem fallback_ne_synthIconId (r : IconData) (n : Nat) :
    "icon_" ++ jsOrStr r.name "unknown" ++ "_" ++ firstTagOrNotag r ≠ synthIconId r n := by
  intro h
  have hl := congrArg String.length h
  simp only [synthIconId, String.length_append] at hl
  have h1 : ("_" : String).length = 1 := rfl
  have h2 : (toString n : String).length = (Nat.repr n).length := rfl
  omega

/-! ### Branch lemmas for the hook operations -/

/-- addFavorite is a no-op when the string form of the id is falsy. -/
theorem addFavorite_of_falsy {icon : IconData} (st : FavState)
    (h : idOfStored icon = "") : addFavorite icon st = st := by
  unfold addFavorite
  simp [h]

/-- addFavorite is a no-op when the id is already a member. -/
theorem addFavorite_of_mem {icon : IconData} {st : FavState}
    (h : idOfStored icon ∈ st.favorites) : addFavorite icon st = st := by
  unfold addFavorite
  by_cases h0 : idOfStored icon = "" <;> simp [h0, h]

/-- addFavorite on a truthy, fresh id adds to the set, appends to the array
and persists both. -/
theorem addFavorite_of_new {icon : IconData} {st : FavState}
    (h0 : idOfStored icon ≠ "") (h1 : idOfStored icon ∉ st.favorites) :
    addFavorite icon st =
      ⟨st.favorites ++ [idOfStored icon], st.icons ++ [icon],
        saveFavoritesToStorage (st.favorites ++ [idOfStored icon]) (st.icons ++ [icon])⟩ := by
  unfold addFavorite
  simp [h0, h1]

/-- removeFavorite is a no-op on a non-member id. -/
theorem removeFavorite_of_not_mem {iconId : String} {st : FavState}
    (h : iconId ∉ st.favorites) : removeFavorite iconId st = st := by
  unfold removeFavorite
  simp [h]

/-- removeFavorite on a member id filters both structures and persists. -/
theorem removeFavorite_of_mem {iconId : String} {st : FavState}
    (h : iconId ∈ st.favorites) :
    removeFavorite iconId st =
      ⟨st.favorites.filter (fun s => decide (s ≠ iconId)),
        st.icons.filter (fun icon => decide (icon.id.map JsId.toStr ≠ some iconId)),
        saveFavoritesToStorage (st.favorites.filter (fun s => decide (s ≠ iconId)))
          (st.icons.filter (fun icon => decide (icon.id.map JsId.toStr ≠ some iconId)))⟩ := by
  unfold removeFavorite
  simp [h]

/-! ### Branch lemmas for the search-page toggle -/

/-- The record returned by handleToggleFavorite: when the string form of the
id is falsy, the synthesized timestamp identifier has been written into the
id field; otherwise the record is returned untouched. -/
theorem handleToggleFavorite_snd (icon : IconData) (now : Nat) (st : FavState) :
    (handleToggleFavorite icon now st).2 =
      (if idOfStored icon = "" then { icon with id := some (JsId.str (synthIconId icon now)) }
       else icon) := by
  unfold handleToggleFavorite
  by_cases h0 : idOfStored icon = "" <;> simp only [h0, if_true, if_false] <;> split <;> rfl

/-- The identifier the search-page toggle acts on: the synthesized timestamp
identifier when the string form of the native id is falsy, otherwise that
string form. -/
def searchToggleId (icon : IconData) (now : Nat) : String :=
  if idOfStored icon = "" then synthIconId icon now else idOfStored icon

/-- The search-page toggle on a member identifier: removal branch. -/
theorem handleToggleFavorite_of_mem {icon : IconData} {now : Nat} {st : FavState}
    (h : searchToggleId icon now ∈ st.favorites) :
    (handleToggleFavorite icon now st).1 =
      ⟨st.favorites.filter (fun s => decide (s ≠ searchToggleId icon now)),
        st.icons.filter (fun favIcon => decide (storedIconId favIcon ≠ searchToggleId icon now)),
        saveFavoritesToStorage
          (st.favorites.filter (fun s => decide (s ≠ searchToggleId icon now)))
          (st.icons.filter (fun favIcon => decide (storedIconId favIcon ≠ searchToggleId icon now)))⟩ := by
  unfold handleToggleFavorite
  unfold searchToggleId at h ⊢
  by_cases h0 : idOfStored icon = "" <;> simp only [h0, if_true, if_false] at h ⊢ <;> simp [h]

/-- The search-page toggle on a fresh identifier: addition branch, with the
duplicate check on the stored-record resolution. -/
theorem handleToggleFavorite_of_not_mem {icon : IconData} {now : Nat} {st : FavState}
    (h : searchToggleId icon now ∉ st.favorites) :
    (handleToggleFavorite icon now st).1 =
      ⟨st.favorites ++ [searchToggleId icon now],
        (if st.icons.any (fun favIcon => storedIconId favIcon == searchToggleId icon now)
         then st.icons else st.icons ++ [(handleToggleFavorite icon now st).2]),
        saveFavoritesToStorage (st.favorites ++ [searchToggleId icon now])
          (if st.icons.any (fun favIcon => storedIconId favIcon == searchToggleId icon now)
           then st.icons else st.icons ++ [(handleToggleFavorite icon now st).2])⟩ := by
  rw [handleToggleFavorite_snd]
  unfold handleToggleFavorite
  unfold searchToggleId at h ⊢
  by_cases h0 : idOfStored icon = "" <;> simp only [h0, if_true, if_false] at h ⊢ <;> simp [h]

/-! ### The lockstep invariant and its preservation -/

/-- Lockstep invariant of the favorites store: the set (as an ordered list)
is exactly the image of the array under the string form of the native id,
it has no duplicates, and every stored record carries a truthy native id. -/
def Lockstep (st : FavState) : Prop :=
  st.icons.map idOfStored = st.favorites ∧ st.favorites.Nodup ∧
    ∀ r ∈ st.icons, idOfStored r ≠ ""

/-- The fresh session state satisfies the invariant. -/
theorem lockstep_initState : Lockstep initState := by
  refine ⟨rfl, List.nodup_nil, ?_⟩
  intro r hr
  exact absurd hr (List.not_mem_nil r)

/-- On an array of records with truthy ids, filtering by strict inequality
of the optional string form commutes with taking string forms. -/
theorem map_filter_hookPred (icons : List IconData) (x : String)
    (h : ∀ r ∈ icons, idOfStored r ≠ "") :
    (icons.filter (fun r => decide (r.id.map JsId.toStr ≠ some x))).map idOfStored
      = (icons.map idOfStored).filter (fun s => decide (s ≠ x)) := by
  induction icons with
  | nil => rfl
  | cons a l ih =>
    have ha := h a (List.mem_cons_self a l)
    have hs := idOfStored_some ha
    have ih2 := ih (fun r hr => h r (List.mem_cons_of_mem a hr))
    by_cases hax : idOfStored a = x
    · have h1 : (decide (a.id.map JsId.toStr ≠ some x)) = false := by
        rw [hs]; simp [hax]
      have h2 : (decide (idOfStored a ≠ x)) = false := by simp [hax]
      simp only [List.map_cons, List.filter_cons, h1, h2, Bool.false_eq_true, if_false]
      exact ih2
    · have h1 : (decide (a.id.map JsId.toStr ≠ some x)) = true := by
        rw [hs]; simp [hax]
      have h2 : (decide (idOfStored a ≠ x)) = true := by simp [hax]
      simp only [List.map_cons, List.filter_cons, h1, h2, if_true]
      rw [ih2]

/-- On an array of records with truthy ids, filtering by the stored-record
resolution commutes with taking string forms. -/
theorem map_filter_storedPred (icons : List IconData) (x : String)
    (h : ∀ r ∈ icons, idOfStored r ≠ "") :
    (icons.filter (fun r => decide (storedIconId r ≠ x))).map idOfStored
      = (icons.map idOfStored).filter (fun s => decide (s ≠ x)) := by
  induction icons with
  | nil => rfl
  | cons a l ih =>
    have ha := h a (List.mem_cons_self a l)
    have hs := storedIconId_eq_idOfStored ha
    have ih2 := ih (fun r hr => h r (List.mem_cons_of_mem a hr))
    by_cases hax : idOfStored a = x
    · have h1 : (decide (storedIconId a ≠ x)) = false := by
        rw [hs]; simp [hax]
      have h2 : (decide (idOfStored a ≠ x)) = false := by simp [hax]
      simp only [List.map_cons, List.filter_cons, h1, h2, Bool.false_eq_true, if_false]
      exact ih2
    · have h1 : (decide (storedIconId a ≠ x)) = true := by
        rw [hs]; simp [hax]
      have h2 : (decide (idOfStored a ≠ x)) = true := by simp [hax]
      simp only [List.map_cons, List.filter_cons, h1, h2, if_true]
      rw [ih2]

/-- On an array of records with truthy ids, the duplicate check of the
search-page toggle fails for any identifier outside the image of the array. -/
theorem any_storedIconId_eq_false (icons : List IconData) (x : String)
    (h : ∀ r ∈ icons, idOfStored r ≠ "") (hx : x ∉ icons.map idOfStored) :
    (icons.any (fun r => storedIconId r == x)) = false := by
  induction icons with
  | nil => rfl
  | cons a l ih =>
    have ha := h a (List.mem_cons_self a l)
    have hs := storedIconId_eq_idOfStored ha
    have hax : idOfStored a ≠ x := by
      intro hc
      exact hx (by simp [List.map_cons, hc])
    have ih2 := ih (fun r hr => h r (List.mem_cons_of_mem a hr))
      (fun hc => hx (List.mem_cons_of_mem _ hc))
    simp only [List.any_cons, ih2, Bool.or_false, hs, beq_eq_false_iff_ne, ne_eq, hax,
      not_false_eq_true, beq_iff_eq]

/-- Filtering a list of strings by strict inequality with a non-member
leaves it unchanged. -/
theorem filter_ne_of_not_mem {l : List String} {x : String} (h : x ∉ l) :
    l.filter (fun s => decide (s ≠ x)) = l := by
  rw [List.filter_eq_self]
  intro a ha
  simp only [decide_eq_true_eq]
  intro hc
  exact h (hc ▸ ha)

/-- addFavorite preserves the lockstep invariant. -/
theorem lockstep_addFavorite (icon : IconData) {st : FavState} (h : Lockstep st) :
    Lockstep (addFavorite icon st) := by
  obtain ⟨hmap, hnd, hne⟩ := h
  by_cases h0 : idOfStored icon = ""
  · rw [addFavorite_of_falsy st h0]; exact ⟨hmap, hnd, hne⟩
  · by_cases h1 : idOfStored icon ∈ st.favorites
    · rw [addFavorite_of_mem h1]; exact ⟨hmap, hnd, hne⟩
    · rw [addFavorite_of_new h0 h1]
      refine ⟨by simp [List.map_append, hmap], ?_, ?_⟩
      · rw [List.nodup_append]
        refine ⟨hnd, List.nodup_singleton _, ?_⟩
        intro x hx hx1
        simp only [List.mem_singleton] at hx1
        exact h1 (hx1 ▸ hx)
      · intro r hr
        rcases List.mem_append.mp hr with hl | hl
        · exact hne r hl
        · simp only [List.mem_singleton] at hl
          exact hl ▸ h0

/-- removeFavorite preserves the lockstep invariant. -/
theorem lockstep_removeFavorite (iconId : String) {st : FavState} (h : Lockstep st) :
    Lockstep (removeFavorite iconId st) := by
  obtain ⟨hmap, hnd, hne⟩ := h
  by_cases h1 : iconId ∈ st.favorites
  · rw [removeFavorite_of_mem h1]
    refine ⟨?_, List.Nodup.filter _ hnd, ?_⟩
    · rw [map_filter_hookPred st.icons iconId hne, hmap]
    · intro r hr
      exact hne r (List.mem_filter.mp hr).1
  · rw [removeFavorite_of_not_mem h1]; exact ⟨hmap, hnd, hne⟩

/-- toggleFavorite preserves the lockstep invariant. -/
theorem lockstep_toggleFavorite (icon : IconData) {st : FavState} (h : Lockstep st) :
    Lockstep (toggleFavorite icon st) := by
  unfold toggleFavorite
  by_cases h0 : idOfStored icon = ""
  · simpa [h0] using h
  · by_cases h1 : idOfStored icon ∈ st.favorites
    · simpa [h0, h1] using lockstep_removeFavorite (idOfStored icon) h
    · simpa [h0, h1] using lockstep_addFavorite icon h

/-- The search-page toggle preserves the lockstep invariant. -/
theorem lockstep_handleToggleFavorite (icon : IconData) (now : Nat) {st : FavState}
    (h : Lockstep st) : Lockstep (handleToggleFavorite icon now st).1 := by
  obtain ⟨hmap, hnd, hne⟩ := h
  by_cases h1 : searchToggleId icon now ∈ st.favorites
  · rw [handleToggleFavorite_of_mem h1]
    refine ⟨?_, List.Nodup.filter _ hnd, ?_⟩
    · rw [map_filter_storedPred st.icons _ hne, hmap]
    · intro r hr
      exact hne r (List.mem_filter.mp hr).1
  · rw [handleToggleFavorite_of_not_mem h1]
    have hx : searchToggleId icon now ∉ st.icons.map idOfStored := by
      rw [hmap]; exact h1
    have hany := any_storedIconId_eq_false st.icons _ hne hx
    have hid2 : idOfStored (handleToggleFavorite icon now st).2 = searchToggleId icon now := by
      rw [handleToggleFavorite_snd]
      unfold searchToggleId idOfStored
      by_cases h0 : (Option.map JsId.toStr icon.id).getD "" = ""
      · simp [h0, JsId.toStr]
      · simp [h0]
    have hne2 : searchToggleId icon now ≠ "" := by
      unfold searchToggleId
      by_cases h0 : idOfStored icon = ""
      · rw [if_pos h0]; exact synthIconId_ne_empty icon now
      · rw [if_neg h0]; exact h0
    refine ⟨?_, ?_, ?_⟩
    · simp only [hany, Bool.false_eq_true, if_false, List.map_append, hmap, List.map_cons,
        List.map_nil, hid2]
    · rw [List.nodup_append]
      refine ⟨hnd, List.nodup_singleton _, ?_⟩
      intro x hx1 hx2
      simp only [List.mem_singleton] at hx2
      exact h1 (hx2 ▸ hx1)
    · intro r hr
      simp only [hany, Bool.false_eq_true, if_false] at hr
      rcases List.mem_append.mp hr with hl | hl
      · exact hne r hl
      · simp only [List.mem_singleton] at hl
        rw [hl, hid2]; exact hne2

/-- Every operation preserves the lockstep invariant. -/
theorem lockstep_applyOp (st : FavState) (op : FavOp) (h : Lockstep st) :
    Lockstep (applyOp st op) := by
  cases op with
  | add icon => exact lockstep_addFavorite icon h
  | remove i => exact lockstep_removeFavorite i h
  | toggle icon => exact lockstep_toggleFavorite icon h
  | toggleSearch icon now => exact lockstep_handleToggleFavorite icon now h

/-- Every operation sequence preserves the lockstep invariant. -/
theorem lockstep_runOps (ops : List FavOp) (st : FavState) (h : Lockstep st) :
    Lockstep (runOps ops st) := by
  induction ops generalizing st with
  | nil => exact h
  | cons op ops ih => exact ih (applyOp st op) (lockstep_applyOp st op h)

/-! ### Write-through invariant for the persisted storage -/

/-- After any run from a fresh session, storage either mirrors the current
in-memory state exactly (the last effective mutation wrote it), or was never
written and the state is still empty. -/
def StorageSync (st : FavState) : Prop :=
  st.storage = saveFavoritesToStorage st.favorites st.icons ∨
    (st.storage = ⟨Cell.absent, Cell.absent⟩ ∧ st.favorites = [] ∧ st.icons = [])

/-- Every operation preserves the write-through property. -/
theorem storageSync_applyOp (st : FavState) (op : FavOp) (h : StorageSync st) :
    StorageSync (applyOp st op) := by
  cases op with
  | add icon =>
    by_cases h0 : idOfStored icon = ""
    · rw [applyOp, addFavorite_of_falsy st h0]; exact h
    · by_cases h1 : idOfStored icon ∈ st.favorites
      · rw [applyOp, addFavorite_of_mem h1]; exact h
      · rw [applyOp, addFavorite_of_new h0 h1]; exact Or.inl rfl
  | remove i =>
    by_cases h1 : i ∈ st.favorites
    · rw [applyOp, removeFavorite_of_mem h1]; exact Or.inl rfl
    · rw [applyOp, removeFavorite_of_not_mem h1]; exact h
  | toggle icon =>
    rw [applyOp]
    unfold toggleFavorite
    by_cases h0 : idOfStored icon = ""
    · simp only [h0, if_true]; exact h
    · by_cases h1 : idOfStored icon ∈ st.favorites
      · simp only [h0, h1, if_false, if_true]
        rw [removeFavorite_of_mem h1]; exact Or.inl rfl
      · simp only [h0, h1, if_false]
        rw [addFavorite_of_new h0 h1]; exact Or.inl rfl
  | toggleSearch icon now =>
    rw [applyOp]
    by_cases h1 : searchToggleId icon now ∈ st.favorites
    · rw [handleToggleFavorite_of_mem h1]; exact Or.inl rfl
    · rw [handleToggleFavorite_of_not_mem h1]; exact Or.inl rfl

/-- Every operation sequence preserves the write-through property. -/
theorem storageSync_runOps (ops : List FavOp) (st : FavState) (h : StorageSync st) :
    StorageSync (runOps ops st) := by
  induction ops generalizing st with
  | nil => exact h
  | cons op ops ih => exact ih (applyOp st op) (storageSync_applyOp st op h)

/-- Folding the Set constructor over fresh elements appends them in order. -/
theorem jsNewSet_go (l acc : List String) (h : (acc ++ l).Nodup) :
    l.foldl (fun a x => if x ∈ a then a else a ++ [x]) acc = acc ++ l := by
  induction l generalizing acc with
  | nil => simp
  | cons a l ih =>
    have hparts := List.nodup_append.mp h
    have hna : a ∉ acc := by
      intro hc
      exact hparts.2.2 hc (List.mem_cons_self a l)
    rw [List.foldl_cons, if_neg hna, ih (acc ++ [a]) (by rwa [← List.append_cons])]
    rw [← List.append_cons]

/-- The JavaScript Set constructor is the identity on duplicate-free lists. -/
theorem jsNewSet_of_nodup {l : List String} (h : l.Nodup) : jsNewSet l = l := by
  unfold jsNewSet
  exact jsNewSet_go l [] (by simpa using h)

/-! ### Concrete records used by witnesses and counterexamples -/

/-- A record with a native string id, as in spec scenario 1. -/
def cat42 : IconData :=
  ⟨"cat", "https://example.test/cat.png", some (JsId.str "42"), some ["animal"]⟩

/-- A record lacking a native id. -/
def catNoId : IconData :=
  ⟨"cat", "https://example.test/cat.png", none, some ["animal"]⟩

/-- A record whose native id is present but falsy: the number zero. -/
def catZeroId : IconData :=
  ⟨"cat", "https://example.test/cat.png", some (JsId.num 0), some ["animal"]⟩

/-! ### Claim C1 -/

/-- Claim C1: for every sequence of add, remove and toggle operations
starting from the empty store, the favorite-id set and the record array stay
in lockstep: equal cardinality, every identifier in the set matched by
exactly one record of the array, and every record matched by exactly one
identifier of the set. Toggle covers both the hook toggle and the inline
search-page toggle. -/
theorem c1_favorites_lockstep (ops : List FavOp) :
    ((runOps ops initState).favorites).length = ((runOps ops initState).icons).length ∧
    (∀ s ∈ (runOps ops initState).favorites,
      ((runOps ops initState).icons.filter (fun r => decide (idOfStored r = s))).length = 1) ∧
    (∀ r ∈ (runOps ops initState).icons,
      idOfStored r ∈ (runOps ops initState).favorites ∧
        (runOps ops initState).favorites.count (idOfStored r) = 1) := by
  obtain ⟨hmap, hnd, hne⟩ := lockstep_runOps ops initState lockstep_initState
  refine ⟨?_, ?_, ?_⟩
  · rw [← hmap, List.length_map]
  · intro s hs
    rw [← List.countP_eq_length_filter]
    have hm : List.countP (fun r => decide (idOfStored r = s)) (runOps ops initState).icons
        = List.countP (fun x => decide (x = s)) ((runOps ops initState).icons.map idOfStored) := by
      rw [List.countP_map]; rfl
    have hc : List.countP (fun x => decide (x = s)) (runOps ops initState).favorites
        = List.count s (runOps ops initState).favorites := by
      rw [List.count_eq_countP]
      refine List.countP_congr ?_
      intro x _
      by_cases hx : x = s <;> simp [hx]
    rw [hm, hmap, hc]
    exact List.count_eq_one_of_mem hnd hs
  · intro r hr
    have hmem : idOfStored r ∈ (runOps ops initState).favorites := by
      rw [← hmap]
      exact List.mem_map_of_mem idOfStored hr
    exact ⟨hmem, List.count_eq_one_of_mem hnd hmem⟩

/-- Witness for C1: after adding the record with native id 42 to the empty
store, the identifier 42 is matched by exactly one stored record and the
record by exactly one set entry. -/
theorem c1_favorites_lockstep_witness :
    (((runOps [FavOp.add cat42] initState).icons.filter
        (fun r => decide (idOfStored r = "42"))).length = 1) ∧
    ((runOps [FavOp.add cat42] initState).favorites.count (idOfStored cat42) = 1) :=
  ⟨(c1_favorites_lockstep [FavOp.add cat42]).2.1 "42" (by decide),
    ((c1_favorites_lockstep [FavOp.add cat42]).2.2 cat42 (by decide)).2⟩

/-! ### Claim C7 -/

/-- addFavorite is idempotent on every state. -/
theorem addFavorite_idem (icon : IconData) (st : FavState) :
    addFavorite icon (addFavorite icon st) = addFavorite icon st := by
  by_cases h0 : idOfStored icon = ""
  · rw [addFavorite_of_falsy _ h0, addFavorite_of_falsy _ h0]
  · by_cases h1 : idOfStored icon ∈ st.favorites
    · rw [addFavorite_of_mem h1, addFavorite_of_mem h1]
    · rw [addFavorite_of_new h0 h1]
      exact addFavorite_of_mem (List.mem_append_right _ (List.mem_singleton_self _))

/-- Claim C7: on every store state reachable by add, remove and toggle
operations from the empty store, a second addFavorite of the same record
leaves the whole state (set, array and persisted storage) identical to a
single addFavorite. -/
theorem c7_add_idempotent (ops : List FavOp) (icon : IconData) :
    addFavorite icon (addFavorite icon (runOps ops initState))
      = addFavorite icon (runOps ops initState) :=
  addFavorite_idem icon (runOps ops initState)

/-! ### Claim C8 -/

/-- Claim C8: after every operation sequence from the fresh session (whose
storage writes all succeed, as every write does in this model), the hook
load run on the resulting storage reproduces the in-memory set and the
in-memory array exactly, order included, with no failure reported. -/
theorem c8_load_roundtrip (ops : List FavOp) :
    loadFavoritesHook (runOps ops initState).storage =
      ⟨(runOps ops initState).favorites, (runOps ops initState).icons, false⟩ := by
  obtain ⟨hmap, hnd, hne⟩ := lockstep_runOps ops initState lockstep_initState
  rcases storageSync_runOps ops initState (Or.inr ⟨rfl, rfl, rfl⟩) with hsync | ⟨hs, hf, hi⟩
  · rw [hsync]
    have hload : loadFavoritesHook
        (saveFavoritesToStorage (runOps ops initState).favorites (runOps ops initState).icons)
        = ⟨jsNewSet (runOps ops initState).favorites, (runOps ops initState).icons, false⟩ := rfl
    rw [hload, jsNewSet_of_nodup hnd]
  · rw [hs, hf, hi]
    rfl

/-! ### Claim C2 -/

/-- Counterexample to C2 as stated: the record catZeroId carries a present
native id (the number zero) whose string form is the string 0, yet getIconId
ignores it, because if (icon.id) tests JavaScript truthiness and zero is
falsy, and synthesizes the index-based identifier instead. -/
theorem c2_counterexample :
    catZeroId.id = some (JsId.num 0) ∧
    JsId.toStr (JsId.num 0) = "0" ∧
    getIconId catZeroId 3 ≠ "0" ∧
    getIconId catZeroId 3 = "icon_cat_animal_3" := by
  refine ⟨rfl, rfl, ?_, rfl⟩
  decide

/-- The resolver of the amended claim C2, written from the amended wording:
when the record carries a TRUTHY native id (present, and neither the empty
string nor the number zero) return its string form; otherwise return the
synthesized string built from the name (or the token unknown when the name
is empty), the first tag (or the token notag when the tags are missing,
empty, or start with an empty string), and the positional index. -/
def resolverSpecC2 (icon : IconData) (index : Nat) : String :=
  if jsTruthyOpt icon.id then
    ((icon.id.map JsId.toStr).getD "")
  else
    "icon_" ++ jsOrStr icon.name "unknown" ++ "_" ++ firstTagOrNotag icon ++ "_" ++ toString index

/-- Claim C2 as amended: getIconId implements exactly the truthiness-guarded
resolver contract. -/
theorem c2_resolver_amended (icon : IconData) (index : Nat) :
    getIconId icon index = resolverSpecC2 icon index := by
  unfold getIconId resolverSpecC2 synthIconId
  cases hcase : icon.id with
  | none => simp [jsTruthyOpt]
  | some v =>
    by_cases hv : jsTruthy v
    · simp [jsTruthyOpt, hv]
    · simp [jsTruthyOpt, hv]

/-! ### Claim C3 -/

/-- Counterexample to C3 as stated: on a record lacking a native id,
addFavorite does not synthesize an identifier and insert it, as resolving
per the resolver contract would; it is a complete no-op, leaving the empty
store empty and storage unwritten. -/
theorem c3_counterexample :
    catNoId.id = none ∧
    addFavorite catNoId initState = initState ∧
    (addFavorite catNoId initState).favorites = [] := by
  exact ⟨rfl, rfl, rfl⟩

/-- Claim C3 as amended: addFavorite resolves the identifier solely as the
string form of the native id. A record whose id string form is falsy is a
no-op (no identifier is synthesized); an identifier already in the set is a
no-op; otherwise the identifier joins the set, the record is appended to the
array, and both are persisted to storage. -/
theorem c3_add_contract (icon : IconData) (st : FavState) :
    (idOfStored icon = "" → addFavorite icon st = st) ∧
    (idOfStored icon ∈ st.favorites → addFavorite icon st = st) ∧
    (idOfStored icon ≠ "" → idOfStored icon ∉ st.favorites →
      addFavorite icon st =
        ⟨st.favorites ++ [idOfStored icon], st.icons ++ [icon],
          saveFavoritesToStorage (st.favorites ++ [idOfStored icon]) (st.icons ++ [icon])⟩) :=
  ⟨addFavorite_of_falsy st, addFavorite_of_mem, addFavorite_of_new⟩

/-- Witness for C3 as amended: the no-id record is a no-op on the empty
store; the record with native id 42 is inserted, appended and persisted. -/
theorem c3_add_contract_witness :
    addFavorite catNoId initState = initState ∧
    addFavorite cat42 initState =
      ⟨["42"], [cat42], saveFavoritesToStorage ["42"] [cat42]⟩ :=
  ⟨(c3_add_contract catNoId initState).1 rfl,
    (c3_add_contract cat42 initState).2.2 (by decide) (by decide)⟩

/-! ### Claim C5 -/

/-- Counterexample to C5 as stated: when the favoriteIconsData key is
malformed but the iconFavorites key parses, the hook load does NOT leave the
favorite set empty — the set assignment has already run when the second
parse throws — although the failure is reported and no exception escapes. -/
theorem c5_counterexample :
    loadFavoritesHook ⟨Cell.val ["42"], Cell.malformed⟩ = ⟨["42"], [], true⟩ ∧
    (loadFavoritesHook ⟨Cell.val ["42"], Cell.malformed⟩).favorites ≠ [] := by
  refine ⟨rfl, ?_⟩
  decide

/-- Claim C5 as amended: on malformed JSON the loads never propagate an
exception (they are total) and report the failure. The hook load leaves both
pieces of state empty when the iconFavorites key is malformed; when only the
favoriteIconsData key is malformed it leaves the record array empty but has
already populated the set from the iconFavorites key. The favorites-page
load leaves both pieces of state empty whenever either key is malformed. -/
theorem c5_load_malformed (s : Storage) :
    (s.iconFavorites = Cell.malformed → loadFavoritesHook s = ⟨[], [], true⟩) ∧
    (s.favoriteIconsData = Cell.malformed →
      (loadFavoritesHook s).icons = [] ∧ (loadFavoritesHook s).logged = true) ∧
    ((s.iconFavorites = Cell.malformed ∨ s.favoriteIconsData = Cell.malformed) →
      loadFavoritesPage s = ⟨[], [], true⟩) := by
  obtain ⟨cf, cd⟩ := s
  refine ⟨?_, ?_, ?_⟩
  · intro h
    cases cf with
    | absent => exact absurd h (by simp)
    | malformed => cases cd <;> rfl
    | val ids => exact absurd h (by simp)
  · intro h
    cases cd with
    | absent => exact absurd h (by simp)
    | malformed => cases cf <;> exact ⟨rfl, rfl⟩
    | val d => exact absurd h (by simp)
  · intro h
    cases cf with
    | malformed => cases cd <;> rfl
    | absent =>
      cases cd with
      | malformed => rfl
      | absent => rcases h with h | h <;> exact absurd h (by simp)
      | val d => rcases h with h | h <;> exact absurd h (by simp)
    | val ids =>
      cases cd with
      | malformed => rfl
      | absent => rcases h with h | h <;> exact absurd h (by simp)
      | val d => rcases h with h | h <;> exact absurd h (by simp)

/-- Witness for C5 as amended: with both keys malformed, the hook load and
the page load both produce the empty, failure-reported state. -/
theorem c5_load_malformed_witness :
    loadFavoritesHook ⟨Cell.malformed, Cell.malformed⟩ = ⟨[], [], true⟩ ∧
    loadFavoritesPage ⟨Cell.malformed, Cell.malformed⟩ = ⟨[], [], true⟩ :=
  ⟨(c5_load_malformed ⟨Cell.malformed, Cell.malformed⟩).1 rfl,
    (c5_load_malformed ⟨Cell.malformed, Cell.malformed⟩).2.2 (Or.inl rfl)⟩

/-! ### Claim C6 -/

/-- A query or credential parameter that JavaScript treats as missing: the
value is absent (null or undefined) or the empty string. An environment
credential set to the empty string counts as absent from configuration. -/
def isBlankParam : Option String → Bool
  | none => true
  | some s => s = ""

/-- The proxy contract of claim C6, written from the claim wording: missing
or empty query, or absent credential, answers 400 with the fixed message;
a successful upstream status passes the upstream JSON through with 200; any
non-success upstream status (for example 503) is relayed with the fixed
fetch-failure message. -/
def routeSpecC6 {B : Type} (q : Option String) (apiKey : Option String)
    (upstream : String → UpstreamResp B) : RouteResp B :=
  if isBlankParam q || isBlankParam apiKey then
    ⟨400, RouteBody.err "Missing query or API key"⟩
  else if 200 ≤ (upstream (q.getD "")).status ∧ (upstream (q.getD "")).status < 300 then
    ⟨200, RouteBody.json (upstream (q.getD "")).body⟩
  else
    ⟨(upstream (q.getD "")).status, RouteBody.err "Failed to fetch icons"⟩

/-- Claim C6: the GET proxy handler implements exactly the error contract of
the claim: 400 with the fixed message when the query is missing or empty or
the credential is absent, relay of a non-success upstream status with the
fixed message, and otherwise the upstream JSON unchanged under status 200. -/
theorem c6_route_contract {B : Type} (q : Option String) (apiKey : Option String)
    (upstream : String → UpstreamResp B) :
    routeGET q apiKey upstream = routeSpecC6 q apiKey upstream := by
  unfold routeGET routeSpecC6
  have hcond : (decide (q.getD "" = "") || decide (apiKey.getD "" = ""))
      = (isBlankParam q || isBlankParam apiKey) := by
    cases q <;> cases apiKey <;> simp [isBlankParam]
  rw [hcond]
  by_cases hb : (isBlankParam q || isBlankParam apiKey) = true
  · rw [if_pos hb, if_pos hb]
  · rw [if_neg hb, if_neg hb]
    by_cases hok : resOk (upstream (q.getD "")).status = true
    · have hcmp : 200 ≤ (upstream (q.getD "")).status ∧ (upstream (q.getD "")).status < 300 := by
        simpa [resOk, Bool.and_eq_true, decide_eq_true_eq] using hok
      simp [hok, hcmp]
    · have hfalse : resOk (upstream (q.getD "")).status = false := by
        cases hres : resOk (upstream (q.getD "")).status
        · rfl
        · exact absurd hres hok
      have hcmp : ¬(200 ≤ (upstream (q.getD "")).status ∧ (upstream (q.getD "")).status < 300) := by
        intro hc
        exact hok (by simpa [resOk, Bool.and_eq_true, decide_eq_true_eq] using hc)
      simp [hfalse, hcmp]

/-! ### Claim C9 -/

/-- Claim C9: the search-page toggle on a record whose id string form is
falsy writes the synthesized timestamp identifier into the record itself, so
every later resolution of that record sees a truthy native id and returns
the previously synthesized value, whatever index is supplied. -/
theorem c9_toggle_mutates_record (icon : IconData) (now : Nat) (st : FavState)
    (h : idOfStored icon = "") :
    (handleToggleFavorite icon now st).2.id = some (JsId.str (synthIconId icon now)) ∧
    jsTruthyOpt (handleToggleFavorite icon now st).2.id = true ∧
    (∀ j : Nat, getIconId (handleToggleFavorite icon now st).2 j = synthIconId icon now) ∧
    idOfStored (handleToggleFavorite icon now st).2 = synthIconId icon now := by
  have hsnd := handleToggleFavorite_snd icon now st
  rw [if_pos h] at hsnd
  have hne := synthIconId_ne_empty icon now
  refine ⟨by rw [hsnd], ?_, ?_, ?_⟩
  · rw [hsnd]
    simp [jsTruthyOpt, jsTruthy, hne]
  · intro j
    rw [hsnd]
    unfold getIconId
    simp [jsTruthy, JsId.toStr, hne]
  · rw [hsnd]
    simp [idOfStored, JsId.toStr]

/-- Witness for C9: toggling the no-id cat record at timestamp 1000 stores
the synthesized identifier in the record, and a later resolution at index 7
returns that identifier. -/
theorem c9_toggle_mutates_record_witness :
    (handleToggleFavorite catNoId 1000 initState).2.id
        = some (JsId.str "icon_cat_animal_1000") ∧
    getIconId (handleToggleFavorite catNoId 1000 initState).2 7 = "icon_cat_animal_1000" := by
  have h := c9_toggle_mutates_record catNoId 1000 initState rfl
  exact ⟨h.1, h.2.2.1 7⟩

/-! ### Claim C10 -/

/-- Claim C10: the favorites-page removal resolves stored records lacking a
truthy native id to the suffix-free template, which never equals a
synthesized identifier of the same record under any disambiguator (index or
timestamp); hence, calling the removal with the displayed identifier of such
a record always leaves that record in the array. -/
theorem c10_remove_keeps_fallback_record (st : FavState) (r : IconData) (i : Nat)
    (hr : r ∈ st.icons) (hid : jsTruthyOpt r.id = false) :
    (∀ n : Nat, storedIconId r ≠ synthIconId r n) ∧
    getIconId r i = synthIconId r i ∧
    r ∈ (pageRemoveFavorite (getIconId r i) st).icons := by
  have hgid : getIconId r i = synthIconId r i := by
    unfold getIconId
    cases hcase : r.id with
    | none => rfl
    | some v =>
      have hv : jsTruthy v = false := by
        rw [hcase] at hid
        simpa [jsTruthyOpt] using hid
      simp [hv]
  have hsne : ∀ n : Nat, storedIconId r ≠ synthIconId r n := by
    intro n
    by_cases h0 : idOfStored r = ""
    · rw [storedIconId_of_empty h0]
      exact fallback_ne_synthIconId r n
    · have hzero : idOfStored r = "0" := by
        cases hcase : r.id with
        | none =>
          rw [idOfStored, hcase] at h0
          simp at h0
        | some v =>
          cases v with
          | str s =>
            have : s = "" := by
              rw [hcase] at hid
              simpa [jsTruthyOpt, jsTruthy] using hid
            rw [idOfStored, hcase] at h0
            simp [JsId.toStr, this] at h0
          | num k =>
            have hk : k = 0 := by
              rw [hcase] at hid
              simpa [jsTruthyOpt, jsTruthy] using hid
            rw [idOfStored, hcase, hk]
            rfl
      rw [storedIconId_eq_idOfStored h0, hzero]
      intro hc
      have hl := congrArg String.length hc
      simp only [synthIconId, String.length_append] at hl
      have hz : ("0" : String).length = 1 := rfl
      have hi5 : ("icon_" : String).length = 5 := rfl
      omega
  have hkeep : (decide (storedIconId r ≠ getIconId r i)) = true := by
    rw [hgid]
    simpa using hsne i
  refine ⟨hsne, hgid, ?_⟩
  unfold pageRemoveFavorite
  exact List.mem_filter.mpr ⟨hr, hkeep⟩

/-- Witness for C10: with the no-id cat record stored (under the identifier
its addition produced at timestamp 1000), removal by its displayed
index-based identifier leaves the record in the array. -/
theorem c10_remove_keeps_fallback_record_witness :
    catNoId ∈ (pageRemoveFavorite (getIconId catNoId 0)
      ⟨["icon_cat_animal_1000"], [catNoId], ⟨Cell.absent, Cell.absent⟩⟩).icons ∧
    storedIconId catNoId ≠ synthIconId catNoId 1000 := by
  have h := c10_remove_keeps_fallback_record
    ⟨["icon_cat_animal_1000"], [catNoId], ⟨Cell.absent, Cell.absent⟩⟩ catNoId 0
    (List.mem_singleton_self catNoId) rfl
  exact ⟨h.2.2, h.1 1000⟩

/-! ### Claim C4 -/

/-- Modelled from the spec: the repository has no toggle path that resolves
identifiers with the index-based resolver (the hook toggle never synthesizes
and the search-page toggle uses the timestamp), so the toggle of section 4.2
is modelled with its resolver as a parameter: resolve the identifier, then
remove from both structures if present (dropping the records that resolve to
it), else insert into both, persisting either way. Instantiating the
resolver with getIconId at a fixed index gives the index-based toggle the
claim describes. -/
def specResolverToggle (resolve : IconData → String) (icon : IconData) (st : FavState) :
    FavState :=
  let iconId := resolve icon
  if iconId ∈ st.favorites then
    let nf := st.favorites.filter (fun s => decide (s ≠ iconId))
    let ni := st.icons.filter (fun r => decide (resolve r ≠ iconId))
    ⟨nf, ni, saveFavoritesToStorage nf ni⟩
  else
    let nf := st.favorites ++ [iconId]
    let ni := st.icons ++ [icon]
    ⟨nf, ni, saveFavoritesToStorage nf ni⟩

/-- Removal branch of the modelled toggle. -/
theorem specResolverToggle_of_mem (resolve : IconData → String) (icon : IconData)
    (st : FavState) (h : resolve icon ∈ st.favorites) :
    specResolverToggle resolve icon st =
      ⟨st.favorites.filter (fun s => decide (s ≠ resolve icon)),
        st.icons.filter (fun r => decide (resolve r ≠ resolve icon)),
        saveFavoritesToStorage (st.favorites.filter (fun s => decide (s ≠ resolve icon)))
          (st.icons.filter (fun r => decide (resolve r ≠ resolve icon)))⟩ := by
  unfold specResolverToggle
  simp [h]

/-- Insertion branch of the modelled toggle. -/
theorem specResolverToggle_of_not_mem (resolve : IconData → String) (icon : IconData)
    (st : FavState) (h : resolve icon ∉ st.favorites) :
    specResolverToggle resolve icon st =
      ⟨st.favorites ++ [resolve icon], st.icons ++ [icon],
        saveFavoritesToStorage (st.favorites ++ [resolve icon]) (st.icons ++ [icon])⟩ := by
  unfold specResolverToggle
  simp [h]

/-- Counterexample to C4 as stated: the search-page toggle path does return
the store to the original absent state on an immediate second toggle, even
at a different timestamp, because the first toggle wrote the synthesized id
into the record (claim C9); the claim asserts it does NOT. Double-toggling
the no-id cat record at timestamps 1000 and 2000 from the fresh session,
passing the record the first toggle returned back to the second, empties
both the set and the array. -/
theorem c4_counterexample :
    ((handleToggleFavorite (handleToggleFavorite catNoId 1000 initState).2 2000
        (handleToggleFavorite catNoId 1000 initState).1).1).favorites = [] ∧
    ((handleToggleFavorite (handleToggleFavorite catNoId 1000 initState).2 2000
        (handleToggleFavorite catNoId 1000 initState).1).1).icons = [] := by
  exact ⟨rfl, rfl⟩

/-- Claim C4 as amended: toggling a record lacking a native identifier twice
in immediate succession returns the store to the original absent state BOTH
with the index-based resolver (the modelled spec toggle) AND along the
search-page toggle path when the second toggle receives the same record
object, carrying the id the first toggle wrote into it. The non-returning
behavior the claim attributes to the timestamp-based resolver occurs only
when the second toggle receives a copy of the record that did not keep the
written id: with a fresh timestamp a second identifier is then inserted, as
the final closed clause exhibits. -/
theorem c4_double_toggle (icon : IconData) (i t1 t2 : Nat) (st : FavState)
    (h0 : idOfStored icon = "")
    (hA1 : getIconId icon i ∉ st.favorites)
    (hA2 : ∀ r ∈ st.icons, getIconId r i ≠ getIconId icon i)
    (hB1 : synthIconId icon t1 ∉ st.favorites)
    (hB2 : ∀ r ∈ st.icons, storedIconId r ≠ synthIconId icon t1) :
    ((specResolverToggle (fun r => getIconId r i) icon
        (specResolverToggle (fun r => getIconId r i) icon st)).favorites = st.favorites ∧
      (specResolverToggle (fun r => getIconId r i) icon
        (specResolverToggle (fun r => getIconId r i) icon st)).icons = st.icons) ∧
    (((handleToggleFavorite (handleToggleFavorite icon t1 st).2 t2
        (handleToggleFavorite icon t1 st).1).1).favorites = st.favorites ∧
      ((handleToggleFavorite (handleToggleFavorite icon t1 st).2 t2
        (handleToggleFavorite icon t1 st).1).1).icons = st.icons) ∧
    ((handleToggleFavorite catNoId 2000
        (handleToggleFavorite catNoId 1000 initState).1).1).favorites
      = ["icon_cat_animal_1000", "icon_cat_animal_2000"] := by
  refine ⟨?_, ?_, rfl⟩
  · -- index-based modelled toggle
    rw [specResolverToggle_of_not_mem (fun r => getIconId r i) icon st hA1]
    have hmem : getIconId icon i ∈ st.favorites ++ [getIconId icon i] :=
      List.mem_append_right _ (List.mem_singleton_self _)
    rw [specResolverToggle_of_mem (fun r => getIconId r i) icon
      ⟨st.favorites ++ [getIconId icon i], st.icons ++ [icon],
        saveFavoritesToStorage (st.favorites ++ [getIconId icon i]) (st.icons ++ [icon])⟩ hmem]
    constructor
    · show (st.favorites ++ [getIconId icon i]).filter
          (fun s => decide (s ≠ getIconId icon i)) = st.favorites
      rw [List.filter_append, filter_ne_of_not_mem hA1]
      simp
    · show (st.icons ++ [icon]).filter
          (fun r => decide (getIconId r i ≠ getIconId icon i)) = st.icons
      rw [List.filter_append]
      have hself : List.filter (fun r => decide (getIconId r i ≠ getIconId icon i)) st.icons
          = st.icons := by
        rw [List.filter_eq_self]
        intro a ha
        simpa using hA2 a ha
      rw [hself]
      simp
  · -- search-page toggle path, record threaded through
    have hg1 : searchToggleId icon t1 = synthIconId icon t1 := by
      unfold searchToggleId
      rw [if_pos h0]
    have hgne : synthIconId icon t1 ≠ "" := synthIconId_ne_empty icon t1
    have hB1s : searchToggleId icon t1 ∉ st.favorites := by
      rw [hg1]; exact hB1
    have hany : (st.icons.any
        (fun favIcon => storedIconId favIcon == searchToggleId icon t1)) = false := by
      rw [List.any_eq_false]
      intro x hx
      rw [hg1]
      simpa using hB2 x hx
    have hst1 := handleToggleFavorite_of_not_mem hB1s
    rw [hany] at hst1
    simp only [Bool.false_eq_true, if_false] at hst1
    have hm : (handleToggleFavorite icon t1 st).2
        = { icon with id := some (JsId.str (synthIconId icon t1)) } := by
      rw [handleToggleFavorite_snd, if_pos h0]
    have hmid : idOfStored (handleToggleFavorite icon t1 st).2 = synthIconId icon t1 := by
      rw [hm]
      simp [idOfStored, JsId.toStr]
    have hg2 : searchToggleId (handleToggleFavorite icon t1 st).2 t2 = synthIconId icon t1 := by
      unfold searchToggleId
      rw [hmid, if_neg hgne]
    have hmem2 : searchToggleId (handleToggleFavorite icon t1 st).2 t2
        ∈ ((handleToggleFavorite icon t1 st).1).favorites := by
      rw [hg2, hst1, hg1]
      exact List.mem_append_right _ (List.mem_singleton_self _)
    rw [handleToggleFavorite_of_mem hmem2, hg2, hst1, hg1]
    constructor
    · show (st.favorites ++ [synthIconId icon t1]).filter
          (fun s => decide (s ≠ synthIconId icon t1)) = st.favorites
      rw [List.filter_append, filter_ne_of_not_mem hB1]
      simp
    · show ((st.icons ++ [(handleToggleFavorite icon t1 st).2]).filter
          (fun favIcon => decide (storedIconId favIcon ≠ synthIconId icon t1))) = st.icons
      rw [List.filter_append]
      have hself : List.filter
          (fun favIcon => decide (storedIconId favIcon ≠ synthIconId icon t1)) st.icons
          = st.icons := by
        rw [List.filter_eq_self]
        intro a ha
        simpa using hB2 a ha
      have hdrop : List.filter
          (fun favIcon => decide (storedIconId favIcon ≠ synthIconId icon t1))
          [(handleToggleFavorite icon t1 st).2] = [] := by
        rw [List.filter_singleton]
        have : storedIconId (handleToggleFavorite icon t1 st).2 = synthIconId icon t1 := by
          rw [storedIconId_eq_idOfStored (by rw [hmid]; exact hgne), hmid]
        simp [this]
      rw [hself, hdrop]
      simp

/-- Witness for C4 as amended: double toggle of the no-id cat record from
the fresh session at timestamps 1000 and 2000, with the record threaded,
returns both the modelled index-based store and the search-page store to
empty. -/
theorem c4_double_toggle_witness :
    (specResolverToggle (fun r => getIconId r 0) catNoId
        (specResolverToggle (fun r => getIconId r 0) catNoId initState)).favorites = [] ∧
    ((handleToggleFavorite (handleToggleFavorite catNoId 1000 initState).2 2000
        (handleToggleFavorite catNoId 1000 initState).1).1).icons = [] := by
  have h := c4_double_toggle catNoId 0 1000 2000 initState rfl
    (List.not_mem_nil _)
    (fun r hr => absurd hr (List.not_mem_nil r))
    (List.not_mem_nil _)
    (fun r hr => absurd hr (List.not_mem_nil r))
  exact ⟨h.1.1, h.2.1.2⟩
